import Mathlib

/-
Verification of the global-economy-api client (src/client.py) via a shallow
embedding.  Python dictionaries produced by xmltodict are modelled by the
inductive type XVal; Python exceptions are modelled by Except PyErr; each
print diagnostic is modelled as an entry appended to a log list returned
alongside the value.  External collaborators (the pycountry ISO database,
the HTTP transport) are modelled as a fixed table fragment and as an
abstract per-request transport outcome respectively.
-/

namespace GlobalEconomy

/-- Kinds of Python exceptions the embedded code can raise. -/
inductive PyErr where
  | typeError
  | keyError
  | attributeError
deriving DecidableEq, Repr

/-- One entry of the external pycountry ISO-3166 database (the fragment the
development exercises); pycountry itself is an external dependency of the
repository. -/
structure Country where
  alpha_2 : String
  alpha_3 : String
deriving DecidableEq, Repr

/-- Fragment of the pycountry database used by the concrete witnesses. -/
def pycountry_db : List Country :=
  [⟨"IN", "IND"⟩, ⟨"CN", "CHN"⟩, ⟨"US", "USA"⟩, ⟨"FR", "FRA"⟩]

/-- Models pycountry.countries.get(alpha_3=code): none when unrecognized. -/
def pycountry_get_alpha3 (code : String) : Option Country :=
  pycountry_db.find? (fun c => c.alpha_3 == code)

/-- Models pycountry.countries.get(alpha_2=code): none when unrecognized. -/
def pycountry_get_alpha2 (code : String) : Option Country :=
  pycountry_db.find? (fun c => c.alpha_2 == code)

/-- Models Python set.add: the set is represented as an insertion-ordered
duplicate-free list. -/
def setAdd (s : List String) (x : String) : List String :=
  if x ∈ s then s else s ++ [x]

/-- Diagnostic printed when a pycountry lookup returns None and the attribute
access on it raises (client.py line 296 / 320). -/
def codeErrorMsg : String := "Error: NoneType object has no attribute"

/-- Loop body of Client.getAlpha2Codes (client.py lines 285-296): length-2
codes are added verbatim; length-3 codes go through the pycountry alpha_3
lookup, whose None result raises AttributeError, caught and logged; other
lengths fall through silently. -/
def alpha2Step (codes : List String × List String) (iso_code : String) :
    List String × List String :=
  if iso_code.length = 2 then (setAdd codes.1 iso_code, codes.2)
  else if iso_code.length = 3 then
    match pycountry_get_alpha3 iso_code with
    | some country => (setAdd codes.1 country.alpha_2, codes.2)
    | none => (codes.1, codes.2 ++ [codeErrorMsg])
  else codes

/-- Client.getAlpha2Codes (client.py lines 277-298). -/
def getAlpha2Codes (iso_codes : List String) : List String × List String :=
  iso_codes.foldl alpha2Step ([], [])

/-- Loop body of Client.getAlpha3Codes (client.py lines 309-320), symmetric
to alpha2Step. -/
def alpha3Step (codes : List String × List String) (iso_code : String) :
    List String × List String :=
  if iso_code.length = 3 then (setAdd codes.1 iso_code, codes.2)
  else if iso_code.length = 2 then
    match pycountry_get_alpha2 iso_code with
    | some country => (setAdd codes.1 country.alpha_3, codes.2)
    | none => (codes.1, codes.2 ++ [codeErrorMsg])
  else codes

/-- Client.getAlpha3Codes (client.py lines 301-322). -/
def getAlpha3Codes (iso_codes : List String) : List String × List String :=
  iso_codes.foldl alpha3Step ([], [])

/-- Character-list substring test: pat occurs contiguously inside s. -/
def charsContain (s pat : List Char) : Bool :=
  match s with
  | [] => pat.isEmpty
  | c :: rest => pat.isPrefixOf (c :: rest) || charsContain rest pat

/-- Substring test: pat occurs contiguously inside s. -/
def strContains (s pat : String) : Bool :=
  charsContain s.toList pat.toList

/-- Semantics of Series.str.contains applied with the regex pattern built
by joining pats with the pipe character (client.py line 229), for patterns
that compile to a literal alternation (every alternative free of regex
metacharacters, see regexSafe): the empty join is the empty pattern, which
matches every string; otherwise some alternative must occur as a
substring.  A pattern whose alternatives carry metacharacters lies outside
this model: its matching differs and its compilation can raise re.error,
so the no-raise statement about monthly getUri is restricted to
metacharacter-free resolved codes. -/
def regexAltContains (pats : List String) (s : String) : Bool :=
  pats.isEmpty || pats.any (fun p => strContains s p)

/-- Characters with no special meaning in a Python regular expression: an
alternation whose alternatives are made only of such characters always
compiles, and compiles to the literal matching regexAltContains models.
Real ISO alpha-3 codes are alphanumeric, but the translators pass any
3-character identifier through unvalidated, and a metacharacter identifier
can make re.compile fail inside the pandas str.contains call (client.py
line 229, outside any try). -/
def regexSafeChar (c : Char) : Bool :=
  c.isAlphanum

/-- A literal regex alternative free of metacharacters. -/
def regexSafe (s : String) : Bool :=
  s.toList.all regexSafeChar

/-- Client.Frequency (client.py lines 46-48). -/
inductive Frequency where
  | annual
  | monthly
deriving DecidableEq, Repr

/-- Frequency.value: annual = 1, monthly = 2. -/
def Frequency.value : Frequency → Nat
  | Frequency.annual => 1
  | Frequency.monthly => 2

/-- One row of an indicator lookup table (columns index, name). -/
structure IndicatorRow where
  index : Nat
  name : String
deriving DecidableEq, Repr

/-- One row of the api country-code table (columns code, id). -/
structure ApiCountryRow where
  code : String
  id : String
deriving DecidableEq, Repr

/-- Post-construction state of the Client object: credentials and the three
lookup tables loaded by the constructor. -/
structure Client where
  root : String
  uid : String
  uidc : String
  lut_api : List ApiCountryRow
  lut_annual : List IndicatorRow
  lut_monthly : List IndicatorRow
deriving DecidableEq, Repr

/-- Models the dictionary access self._lut[frequency.name]. -/
def Client.lut (c : Client) : Frequency → List IndicatorRow
  | Frequency.annual => c.lut_annual
  | Frequency.monthly => c.lut_monthly

/-- Diagnostic printed for an unresolved or duplicated indicator name
(client.py line 341). -/
def indicatorNotFoundMsg (name : String) : String :=
  "Indicator name not found / duplicated: " ++ name

/-- Client.getIndicatorIndexes (client.py lines 325-343): for each name the
frequency-specific table is filtered on the name column; exactly one row
contributes its index, any other cardinality logs a diagnostic and is
skipped. -/
def Client.getIndicatorIndexes (c : Client) (frequency : Frequency)
    (names : List String) : List Nat × List String :=
  names.foldl (fun indexes name =>
    match (c.lut frequency).filter (fun r => r.name == name) with
    | [r] => (indexes.1 ++ [r.index], indexes.2)
    | _ => (indexes.1, indexes.2 ++ [indicatorNotFoundMsg name])) ([], [])

/-- Single-name resolution outcome: some index when the filtered table is a
singleton, none otherwise; used to characterize getIndicatorIndexes. -/
def resolveOne (lut : List IndicatorRow) (name : String) : Option Nat :=
  match lut.filter (fun r => r.name == name) with
  | [r] => some r.index
  | _ => none

/-- Keyword arguments of Client.getUri (client.py lines 215-234). -/
structure UriKwargs where
  period : Option String := none
  start_year : Option Int := none
  end_year : Option Int := none
  indicators : Option (List String) := none
  indexes : Option (List Nat) := none

/-- Period string construction (client.py lines 215-219); now_year models
datetime.now().year. -/
def Client.periodString (kw : UriKwargs) (now_year : Int) : String :=
  match kw.period with
  | some p => p
  | none =>
      toString (kw.start_year.getD 1960) ++ ":" ++ toString (kw.end_year.getD now_year)

/-- Country-code resolution inside getUri (client.py lines 222-230): annual
frequency uses getAlpha2Codes; monthly frequency maps getAlpha3Codes through
the api table by regex substring containment on the code column and keeps
the id column. -/
def Client.resolveCodes (c : Client) (iso_codes : List String) :
    Frequency → List String × List String
  | Frequency.annual => getAlpha2Codes iso_codes
  | Frequency.monthly =>
      let alpha3 := getAlpha3Codes iso_codes
      ((c.lut_api.filter (fun r => regexAltContains alpha3.1 r.code)).map
        (fun r => r.id), alpha3.2)

/-- Indicator-argument resolution inside getUri (client.py lines 233-238):
indicator names, when given, take precedence and are resolved through
getIndicatorIndexes; otherwise the indexes keyword is used as passed
(possibly absent). -/
def Client.resolveIndexes (c : Client) (frequency : Frequency)
    (kw : UriKwargs) : Option (List Nat) × List String :=
  match kw.indicators with
  | some names =>
      let r := c.getIndicatorIndexes frequency names
      (some r.1, r.2)
  | none => (kw.indexes, [])

/-- Client.getUri (client.py lines 206-256).  When no indicator argument was
supplied at all, indexes is Python None and evaluating len(indexes) raises
TypeError, but only after len(codes) > 0 short-circuits to True; with a
resolved index list present, the validity check selects between the
formatted uri and the logged null return. -/
def Client.getUri (c : Client) (iso_codes : List String)
    (frequency : Frequency) (now_year : Int) (kw : UriKwargs) :
    Except PyErr (Option String × List String) :=
  let period := Client.periodString kw now_year
  let codes := c.resolveCodes iso_codes frequency
  let indexes := c.resolveIndexes frequency kw
  match indexes.1 with
  | none =>
      if 0 < codes.1.length then Except.error PyErr.typeError
      else Except.ok (none, codes.2 ++ indexes.2 ++ ["Invalid indicator arguments"])
  | some idxs =>
      if 0 < codes.1.length ∧ 0 < idxs.length then
        Except.ok (some (c.root ++ "?tp=" ++ toString frequency.value ++
          "&ind=" ++ String.intercalate "," (idxs.map toString) ++
          "&cnt=" ++ String.intercalate "," codes.1 ++
          "&prd=" ++ period ++ "&uid=" ++ c.uid ++ "&uidc=" ++ c.uidc),
          codes.2 ++ indexes.2)
      else Except.ok (none, codes.2 ++ indexes.2 ++ ["Invalid indicator arguments"])

/-- Values of the nested-mapping structure produced by xmltodict.parse:
text nodes, mappings (association lists preserving document order),
repeated-element sequences, and Python None. -/
inductive XVal where
  | str : String → XVal
  | obj : List (String × XVal) → XVal
  | list : List XVal → XVal
  | null : XVal

/-- Python subscript value[key]: mapping lookup raising KeyError when the key
is absent, TypeError when the value is not subscriptable by a string. -/
def pySubscript : XVal → String → Except PyErr XVal
  | XVal.obj kvs, k =>
      match kvs.find? (fun p => p.1 == k) with
      | some p => Except.ok p.2
      | none => Except.error PyErr.keyError
  | XVal.str _, _ => Except.error PyErr.typeError
  | XVal.list _, _ => Except.error PyErr.typeError
  | XVal.null, _ => Except.error PyErr.typeError

/-- Python dict.get(key): available on mappings only (AttributeError
otherwise), returning None for an absent key. -/
def pyGet : XVal → String → Except PyErr (Option XVal)
  | XVal.obj kvs, k => Except.ok ((kvs.find? (fun p => p.1 == k)).map (fun p => p.2))
  | _, _ => Except.error PyErr.attributeError

/-- Python membership test (key in value) as used with a string key: key
lookup on mappings, substring test on strings, element equality on
sequences (a string key only equals string entries), TypeError on None. -/
def pyContainsKey : XVal → String → Except PyErr Bool
  | XVal.obj kvs, k => Except.ok (kvs.any (fun p => p.1 == k))
  | XVal.str s, k => Except.ok (strContains s k)
  | XVal.list xs, k =>
      Except.ok (xs.any (fun x => match x with
        | XVal.str s => s == k
        | _ => false))
  | XVal.null, _ => Except.error PyErr.typeError

/-- Single-or-sequence normalization (client.py lines 179 and 185):
x if isinstance(x, list) else the singleton of x. -/
def normalizeSeq : XVal → List XVal
  | XVal.list xs => xs
  | v => [v]

/-- Decimal-numeral value of a non-empty character list, none when any
character is not a decimal digit. -/
def digitsToNat : List Char → Option Nat
  | [] => none
  | c :: cs => (c :: cs).foldl (fun acc ch => acc.bind (fun n =>
      if ch.isDigit then some (n * 10 + (ch.toNat - 48)) else none)) (some 0)

/-- Whitespace characters int() strips from both ends of its argument. -/
def pySpaceChar (c : Char) : Bool :=
  c == ' ' || c == '\t' || c == '\n' || c == '\r' || c == '\x0b' || c == '\x0c'

/-- Surrounding-whitespace strip performed by int(). -/
def stripPySpace (cs : List Char) : List Char :=
  ((cs.dropWhile pySpaceChar).reverse.dropWhile pySpaceChar).reverse

/-- Placement check for the group underscores Python numerals permit:
walking the characters after the first one, every underscore must follow a
digit (the running prev character) and be followed by a digit. -/
def underscoresRest (prev : Char) : List Char → Bool
  | [] => true
  | c :: cs =>
      if c == '_' then
        prev.isDigit && (match cs with
          | d :: _ => d.isDigit
          | [] => false) && underscoresRest c cs
      else underscoresRest c cs

/-- Digit part of a Python numeral: rejects leading, trailing, doubled or
misplaced underscores, then drops the remaining group underscores. -/
def numeralCore (cs : List Char) : Option (List Char) :=
  match cs with
  | [] => none
  | c :: rest =>
      if c == '_' then none
      else if underscoresRest c rest then
        some ((c :: rest).filter (fun ch => ch != '_'))
      else none

/-- Python int() on text: optional surrounding whitespace, an optional
sign, then decimal digits with optional single group underscores between
digits; non-ASCII digit forms int() additionally accepts are not modelled,
the vendor XML carries plain ASCII numerals. -/
def pyIntOfString (s : String) : Option Int :=
  match stripPySpace s.toList with
  | '-' :: rest => ((numeralCore rest).bind digitsToNat).map (fun n => -(n : Int))
  | '+' :: rest => ((numeralCore rest).bind digitsToNat).map (fun n => (n : Int))
  | cs => ((numeralCore cs).bind digitsToNat).map (fun n => (n : Int))

/-- Python int() applied to a parsed XML value: numeric text converts,
everything else raises, collapsed here to none because every call site
catches the exception. -/
def pyInt : XVal → Option Int
  | XVal.str s => pyIntOfString s
  | _ => none

/-- Python int() applied to the result of dict.get, where the absent-key
None raises TypeError inside int(). -/
def pyIntOpt : Option XVal → Option Int
  | some v => pyInt v
  | none => none

/-- datetime.date value. -/
structure PyDate where
  year : Int
  month : Int
  day : Int
deriving DecidableEq, Repr

/-- datetime.date construction: year within MINYEAR..MAXYEAR, month within
1..12, day within the month; every call site passes day = 1, so the
month-length refinement beyond 28 is never exercised. -/
def pyDate (y m d : Int) : Option PyDate :=
  if 1 ≤ y ∧ y ≤ 9999 ∧ 1 ≤ m ∧ m ≤ 12 ∧ 1 ≤ d ∧ d ≤ 28 then
    some ⟨y, m, d⟩
  else none

/-- One tabular record produced by convertToDataFrame (client.py lines
191-194). -/
structure Record where
  id : XVal
  date : PyDate
  indicator : XVal
  value : XVal

/-- The per-element record construction inside the try block of
convertToDataFrame (client.py lines 188-197): any failure along the way is
caught there, so the whole computation collapses to an Option. -/
def parseRecord (schema element : XVal) : Option Record := do
  let idv ← (pySubscript schema "@id").toOption
  let yearRaw ← (pyGet element "ge:year").toOption
  let year ← pyIntOpt yearRaw
  let monthRaw ← (pyGet element "ge:month").toOption
  let month ← match monthRaw with
    | some v => pyInt v
    | none => some 1
  let d ← pyDate year month 1
  let ind ← (pySubscript element "ge:indicator").toOption
  let v ← (pySubscript element "ge:value").toOption
  some { id := idv, date := d, indicator := ind, value := v }

/-- Diagnostic printed when a per-element parse fails (client.py line 197). -/
def xmlReadErrorMsg : String := "XML Read Error"

/-- Rows the conversion produces for one country entry: for a mapping
holding an element section, every well-parsed element of its normalized
element sequence in order, nothing otherwise; the non-mapping arm is never
reached under the mapping-shaped-entries hypothesis of the theorems that
use this characterization. -/
def schemaRecords : XVal → List Record
  | XVal.obj kvs =>
      match kvs.find? (fun p => p.1 == "ge:element") with
      | some pr => (normalizeSeq pr.2).filterMap (parseRecord (XVal.obj kvs))
      | none => []
  | _ => []

/-- Number of XML-read diagnostics one country entry contributes: one per
element of its normalized element sequence whose parse fails. -/
def schemaLogCount : XVal → Nat
  | XVal.obj kvs =>
      match kvs.find? (fun p => p.1 == "ge:element") with
      | some pr => (normalizeSeq pr.2).countP
          (fun e => (parseRecord (XVal.obj kvs) e).isNone)
      | none => 0
  | _ => 0

/-- Per-country-schema body of the conversion loop (client.py lines
180-197): the membership test and the element subscript happen outside the
per-element try block, so their failures propagate. -/
def countryStep (schema : XVal) (acc : List Record × List String) :
    Except PyErr (List Record × List String) :=
  match pyContainsKey schema "ge:element" with
  | Except.error e => Except.error e
  | Except.ok hasElement =>
    if hasElement then
      match pySubscript schema "ge:element" with
      | Except.error e => Except.error e
      | Except.ok elementSection =>
          Except.ok ((normalizeSeq elementSection).foldl (fun acc2 element =>
            match parseRecord schema element with
            | some r => (acc2.1 ++ [r], acc2.2)
            | none => (acc2.1, acc2.2 ++ [xmlReadErrorMsg])) acc)
    else Except.ok acc

/-- Record accumulation of Client.convertToDataFrame (client.py lines
176-197): the two top-level subscripts are unguarded, so their failures
propagate to the caller. -/
def Client.convertRecords (data : XVal) :
    Except PyErr (List Record × List String) :=
  match pySubscript data "ge:data" with
  | Except.error e => Except.error e
  | Except.ok dataSection =>
    match pySubscript dataSection "ge:country" with
    | Except.error e => Except.error e
    | Except.ok countrySection =>
        (normalizeSeq countrySection).foldlM
          (fun acc schema => countryStep schema acc) ([], [])

/-- Client.convertToDataFrame (client.py lines 169-203): a dataframe is
produced exactly when at least one record was accumulated, otherwise the
None default is returned. -/
def Client.convertToDataFrame (data : XVal) :
    Except PyErr (Option (List Record) × List String) :=
  match Client.convertRecords data with
  | Except.error e => Except.error e
  | Except.ok r =>
      Except.ok (if 0 < r.1.length then some r.1 else none, r.2)

/-- Outcome of the requests.get call plus response validation, as observed
by postRequest for one uri: one of the four categorized request failures, a
failure of any other kind, or a response body together with whether it is
well-formed XML and, if so, its xmltodict parse. -/
inductive TransportResult where
  | httpError
  | connectionError
  | timeoutError
  | requestError
  | generalError
  | success (wellFormed : Bool) (parsed : XVal)

/-- Client.postRequest (client.py lines 124-166): every exception category
is caught and logged, the data default None survives unless the response is
well-formed XML, and the function always returns normally. -/
def Client.postRequest (transport : String → TransportResult) (uri : String) :
    XVal × List String :=
  match transport uri with
  | TransportResult.httpError => (XVal.null, ["Http Error"])
  | TransportResult.connectionError => (XVal.null, ["Connection Error"])
  | TransportResult.timeoutError => (XVal.null, ["Timeout Error"])
  | TransportResult.requestError => (XVal.null, ["Request Error"])
  | TransportResult.generalError => (XVal.null, ["General Error"])
  | TransportResult.success wellFormed parsed =>
      if wellFormed then (parsed, []) else (XVal.null, [])

/-- Client.getIndicatorLookup (client.py lines 92-121).  Each iteration of
the range(1, max_index) loop begins with
self.getUri(frequency, indexes=[idx], countries=[..], period=..), which
passes a single positional argument although getUri declares two required
positional parameters (iso_codes, frequency); Python therefore raises
TypeError before entering getUri, outside any try block, so the first
iteration aborts the whole probe and nothing after the call is
reachable. -/
def Client.getIndicatorLookup (c : Client)
    (transport : String → TransportResult) (frequency : Frequency)
    (max_index : Nat := 2000) :
    Except PyErr (List IndicatorRow × List String) :=
  (List.range' 1 (max_index - 1)).foldlM
    (fun _acc _idx =>
      (Except.error PyErr.typeError :
        Except PyErr (List IndicatorRow × List String)))
    ([], [])

/-- Boolean success test on an embedded Python computation: true exactly
when no exception propagated. -/
def exceptOk {α : Type} : Except PyErr α → Bool
  | Except.ok _ => true
  | Except.error _ => false

/-- Mapping-shape test on a parsed value. -/
def XVal.isObj : XVal → Bool
  | XVal.obj _ => true
  | _ => false

/-- Sufficient shape condition under which convertToDataFrame cannot raise:
the ge:data and ge:country sections exist and every normalized country
entry is a mapping. -/
def wellShapedPayload (data : XVal) : Bool :=
  match pySubscript data "ge:data" with
  | Except.ok d1 =>
      match pySubscript d1 "ge:country" with
      | Except.ok d2 => (normalizeSeq d2).all (fun s => s.isObj)
      | Except.error _ => false
  | Except.error _ => false

/-- One element mapping with year, indicator and value children and no
month, used by the concrete theorems. -/
def oneElement (yv indv vv : XVal) : XVal :=
  XVal.obj [("ge:year", yv), ("ge:indicator", indv), ("ge:value", vv)]

/-- One country mapping carrying an id attribute and a single element, used
by the concrete theorems. -/
def oneSchema (idv : String) (yv indv vv : XVal) : List (String × XVal) :=
  [("@id", XVal.str idv), ("ge:element", oneElement yv indv vv)]

/-- Payload holding one country with one element, used by the concrete
theorems. -/
def onePayload (idv : String) (yv indv vv : XVal) : XVal :=
  XVal.obj [("ge:data", XVal.obj [("ge:country",
    XVal.obj (oneSchema idv yv indv vv))])]

/-- Payload whose country section is a sequence of two entries, the first
with one well-formed element, the second with no element section, used by
the concrete theorems. -/
def twoCountryPayload : XVal :=
  XVal.obj [("ge:data", XVal.obj [("ge:country", XVal.list
    [XVal.obj (oneSchema "IN" (XVal.str "2020") (XVal.str "G") (XVal.str "5")),
     XVal.obj [("@id", XVal.str "CN")]])])]

/-- Concrete client state used by the witnesses: credentials and small
lookup tables of the shape the constructor loads from the cfg files. -/
def sampleClient : Client :=
  { root := "https://api"
    uid := "u1"
    uidc := "c1"
    lut_api := [⟨"IND", "96"⟩, ⟨"CHN", "40"⟩]
    lut_annual := [⟨1, "Access to electricity"⟩, ⟨2, "Exports, percent of GDP"⟩]
    lut_monthly := [⟨3, "Debt service ratios for private non-financial sector"⟩] }

theorem setAdd_mem_self (s : List String) (x : String) : x ∈ setAdd s x := by
  unfold setAdd
  by_cases h : x ∈ s
  · simpa [if_pos h]
  · simp [if_neg h]

theorem mem_setAdd_iff {s : List String} {x y : String} :
    y ∈ setAdd s x ↔ y ∈ s ∨ y = x := by
  unfold setAdd
  by_cases h : x ∈ s
  · simp only [if_pos h]
    constructor
    · exact Or.inl
    · rintro (h' | rfl)
      · exact h'
      · exact h
  · simp [if_neg h]

theorem setAdd_nodup {s : List String} {x : String} (h : s.Nodup) :
    (setAdd s x).Nodup := by
  unfold setAdd
  by_cases hx : x ∈ s
  · simpa [if_pos hx]
  · simp [if_neg hx, List.nodup_append, h, hx]

theorem alpha2Step_fst_mono (acc : List String × List String)
    (code : String) {y : String} (h : y ∈ acc.1) : y ∈ (alpha2Step acc code).1 := by
  by_cases h2 : code.length = 2
  · simp only [alpha2Step, if_pos h2]
    exact mem_setAdd_iff.mpr (Or.inl h)
  · by_cases h3 : code.length = 3
    · simp only [alpha2Step, if_neg h2, if_pos h3]
      cases hp : pycountry_get_alpha3 code with
      | some ct => exact mem_setAdd_iff.mpr (Or.inl h)
      | none => exact h
    · simp only [alpha2Step, if_neg h2, if_neg h3]
      exact h

theorem alpha2_fold_fst_mono (iso : List String) :
    ∀ (acc : List String × List String) {y : String}, y ∈ acc.1 →
    y ∈ (iso.foldl alpha2Step acc).1 := by
  induction iso with
  | nil => intro acc y h; exact h
  | cons a as ih => intro acc y h; exact ih _ (alpha2Step_fst_mono acc a h)

theorem alpha2_fold_mem_of_len2 (iso : List String) :
    ∀ (acc : List String × List String) (code : String), code ∈ iso →
    code.length = 2 → code ∈ (iso.foldl alpha2Step acc).1 := by
  induction iso with
  | nil => intro _ _ h _; cases h
  | cons a as ih =>
    intro acc code hmem h2
    rcases List.mem_cons.mp hmem with rfl | hmem'
    · refine alpha2_fold_fst_mono as _ ?_
      simp only [alpha2Step, if_pos h2]
      exact setAdd_mem_self _ _
    · exact ih _ code hmem' h2

theorem alpha2_fold_mem_of_len3 (iso : List String) :
    ∀ (acc : List String × List String) (code : String) (ct : Country),
    code ∈ iso → code.length = 3 → pycountry_get_alpha3 code = some ct →
    ct.alpha_2 ∈ (iso.foldl alpha2Step acc).1 := by
  induction iso with
  | nil => intro _ _ _ h _ _; cases h
  | cons a as ih =>
    intro acc code ct hmem h3 hct
    rcases List.mem_cons.mp hmem with rfl | hmem'
    · refine alpha2_fold_fst_mono as _ ?_
      have h2 : ¬ code.length = 2 := by rw [h3]; decide
      simp only [alpha2Step, if_neg h2, if_pos h3, hct]
      exact setAdd_mem_self _ _
    · exact ih _ code ct hmem' h3 hct

theorem alpha2_fold_fst_sub (iso : List String) :
    ∀ (acc : List String × List String) (y : String),
    y ∈ (iso.foldl alpha2Step acc).1 →
    y ∈ acc.1 ∨ y.length = 2 ∨ ∃ ct ∈ pycountry_db, y = ct.alpha_2 := by
  induction iso with
  | nil => intro acc y h; exact Or.inl h
  | cons a as ih =>
    intro acc y h
    rcases ih _ y h with h' | h' | h'
    · by_cases h2 : a.length = 2
      · simp only [alpha2Step, if_pos h2] at h'
        rcases mem_setAdd_iff.mp h' with h'' | rfl
        · exact Or.inl h''
        · exact Or.inr (Or.inl h2)
      · by_cases h3 : a.length = 3
        · simp only [alpha2Step, if_neg h2, if_pos h3] at h'
          cases hp : pycountry_get_alpha3 a with
          | some ct =>
            simp only [hp] at h'
            rcases mem_setAdd_iff.mp h' with h'' | rfl
            · exact Or.inl h''
            · exact Or.inr (Or.inr ⟨ct, List.mem_of_find?_eq_some hp, rfl⟩)
          | none =>
            simp only [hp] at h'
            exact Or.inl h'
        · simp only [alpha2Step, if_neg h2, if_neg h3] at h'
          exact Or.inl h'
    · exact Or.inr (Or.inl h')
    · exact Or.inr (Or.inr h')

theorem pycountry_db_alpha2_len : ∀ ct ∈ pycountry_db, ct.alpha_2.length = 2 := by
  decide

theorem pycountry_db_alpha3_len : ∀ ct ∈ pycountry_db, ct.alpha_3.length = 3 := by
  decide

theorem getAlpha2Codes_mem_len (iso : List String) (y : String)
    (h : y ∈ (getAlpha2Codes iso).1) : y.length = 2 := by
  rcases alpha2_fold_fst_sub iso ([], []) y h with h' | h' | ⟨ct, hct, rfl⟩
  · cases h'
  · exact h'
  · exact pycountry_db_alpha2_len ct hct

theorem alpha2_fold_snd (iso : List String) :
    ∀ acc : List String × List String,
    (iso.foldl alpha2Step acc).2.length =
      acc.2.length + iso.countP (fun c => c.length == 3 && (pycountry_get_alpha3 c).isNone) := by
  induction iso with
  | nil => intro acc; simp
  | cons a as ih =>
    intro acc
    rw [List.foldl_cons, ih, List.countP_cons]
    by_cases h2 : a.length = 2
    · simp only [alpha2Step, if_pos h2, h2]
      simp
    · by_cases h3 : a.length = 3
      · cases hp : pycountry_get_alpha3 a with
        | some ct =>
          simp only [alpha2Step, if_neg h2, if_pos h3, hp, h3]
          simp
        | none =>
          simp only [alpha2Step, if_neg h2, if_pos h3, hp, h3]
          simp [hp]
          omega
      · have hb : (a.length == 3) = false := by
          simp [h3]
        simp only [alpha2Step, if_neg h2, if_neg h3, hb]
        simp

theorem alpha2_fold_nodup (iso : List String) :
    ∀ acc : List String × List String, acc.1.Nodup →
    (iso.foldl alpha2Step acc).1.Nodup := by
  induction iso with
  | nil => intro acc h; exact h
  | cons a as ih =>
    intro acc h
    refine ih _ ?_
    by_cases h2 : a.length = 2
    · simp only [alpha2Step, if_pos h2]
      exact setAdd_nodup h
    · by_cases h3 : a.length = 3
      · simp only [alpha2Step, if_neg h2, if_pos h3]
        cases hp : pycountry_get_alpha3 a with
        | some ct => exact setAdd_nodup h
        | none => exact h
      · simp only [alpha2Step, if_neg h2, if_neg h3]
        exact h

theorem alpha2Step_skip (acc : List String × List String) (code : String)
    (h2 : code.length ≠ 2) (h3 : code.length ≠ 3) : alpha2Step acc code = acc := by
  simp [alpha2Step, h2, h3]

theorem getAlpha2Codes_skip (xs ys : List String) (code : String)
    (h2 : code.length ≠ 2) (h3 : code.length ≠ 3) :
    getAlpha2Codes (xs ++ code :: ys) = getAlpha2Codes (xs ++ ys) := by
  unfold getAlpha2Codes
  rw [List.foldl_append, List.foldl_append, List.foldl_cons, alpha2Step_skip _ _ h2 h3]

theorem alpha3Step_fst_mono (acc : List String × List String)
    (code : String) {y : String} (h : y ∈ acc.1) : y ∈ (alpha3Step acc code).1 := by
  by_cases h3 : code.length = 3
  · simp only [alpha3Step, if_pos h3]
    exact mem_setAdd_iff.mpr (Or.inl h)
  · by_cases h2 : code.length = 2
    · simp only [alpha3Step, if_neg h3, if_pos h2]
      cases hp : pycountry_get_alpha2 code with
      | some ct => exact mem_setAdd_iff.mpr (Or.inl h)
      | none => exact h
    · simp only [alpha3Step, if_neg h3, if_neg h2]
      exact h

theorem alpha3_fold_fst_mono (iso : List String) :
    ∀ (acc : List String × List String) {y : String}, y ∈ acc.1 →
    y ∈ (iso.foldl alpha3Step acc).1 := by
  induction iso with
  | nil => intro acc y h; exact h
  | cons a as ih => intro acc y h; exact ih _ (alpha3Step_fst_mono acc a h)

theorem alpha3_fold_mem_of_len3 (iso : List String) :
    ∀ (acc : List String × List String) (code : String), code ∈ iso →
    code.length = 3 → code ∈ (iso.foldl alpha3Step acc).1 := by
  induction iso with
  | nil => intro _ _ h _; cases h
  | cons a as ih =>
    intro acc code hmem h3
    rcases List.mem_cons.mp hmem with rfl | hmem'
    · refine alpha3_fold_fst_mono as _ ?_
      simp only [alpha3Step, if_pos h3]
      exact setAdd_mem_self _ _
    · exact ih _ code hmem' h3

theorem alpha3_fold_mem_of_len2 (iso : List String) :
    ∀ (acc : List String × List String) (code : String) (ct : Country),
    code ∈ iso → code.length = 2 → pycountry_get_alpha2 code = some ct →
    ct.alpha_3 ∈ (iso.foldl alpha3Step acc).1 := by
  induction iso with
  | nil => intro _ _ _ h _ _; cases h
  | cons a as ih =>
    intro acc code ct hmem h2 hct
    rcases List.mem_cons.mp hmem with rfl | hmem'
    · refine alpha3_fold_fst_mono as _ ?_
      have h3 : ¬ code.length = 3 := by rw [h2]; decide
      simp only [alpha3Step, if_neg h3, if_pos h2, hct]
      exact setAdd_mem_self _ _
    · exact ih _ code ct hmem' h2 hct

theorem alpha3_fold_fst_sub (iso : List String) :
    ∀ (acc : List String × List String) (y : String),
    y ∈ (iso.foldl alpha3Step acc).1 →
    y ∈ acc.1 ∨ y.length = 3 ∨ ∃ ct ∈ pycountry_db, y = ct.alpha_3 := by
  induction iso with
  | nil => intro acc y h; exact Or.inl h
  | cons a as ih =>
    intro acc y h
    rcases ih _ y h with h' | h' | h'
    · by_cases h3 : a.length = 3
      · simp only [alpha3Step, if_pos h3] at h'
        rcases mem_setAdd_iff.mp h' with h'' | rfl
        · exact Or.inl h''
        · exact Or.inr (Or.inl h3)
      · by_cases h2 : a.length = 2
        · simp only [alpha3Step, if_neg h3, if_pos h2] at h'
          cases hp : pycountry_get_alpha2 a with
          | some ct =>
            simp only [hp] at h'
            rcases mem_setAdd_iff.mp h' with h'' | rfl
            · exact Or.inl h''
            · exact Or.inr (Or.inr ⟨ct, List.mem_of_find?_eq_some hp, rfl⟩)
          | none =>
            simp only [hp] at h'
            exact Or.inl h'
        · simp only [alpha3Step, if_neg h3, if_neg h2] at h'
          exact Or.inl h'
    · exact Or.inr (Or.inl h')
    · exact Or.inr (Or.inr h')

theorem getAlpha3Codes_mem_len (iso : List String) (y : String)
    (h : y ∈ (getAlpha3Codes iso).1) : y.length = 3 := by
  rcases alpha3_fold_fst_sub iso ([], []) y h with h' | h' | ⟨ct, hct, rfl⟩
  · cases h'
  · exact h'
  · exact pycountry_db_alpha3_len ct hct

theorem alpha3_fold_snd (iso : List String) :
    ∀ acc : List String × List String,
    (iso.foldl alpha3Step acc).2.length =
      acc.2.length + iso.countP (fun c => c.length == 2 && (pycountry_get_alpha2 c).isNone) := by
  induction iso with
  | nil => intro acc; simp
  | cons a as ih =>
    intro acc
    rw [List.foldl_cons, ih, List.countP_cons]
    by_cases h3 : a.length = 3
    · simp only [alpha3Step, if_pos h3, h3]
      simp
    · by_cases h2 : a.length = 2
      · cases hp : pycountry_get_alpha2 a with
        | some ct =>
          simp only [alpha3Step, if_neg h3, if_pos h2, hp, h2]
          simp
        | none =>
          simp only [alpha3Step, if_neg h3, if_pos h2, hp, h2]
          simp [hp]
          omega
      · have hb : (a.length == 2) = false := by
          simp [h2]
        simp only [alpha3Step, if_neg h3, if_neg h2, hb]
        simp

theorem alpha3_fold_nodup (iso : List String) :
    ∀ acc : List String × List String, acc.1.Nodup →
    (iso.foldl alpha3Step acc).1.Nodup := by
  induction iso with
  | nil => intro acc h; exact h
  | cons a as ih =>
    intro acc h
    refine ih _ ?_
    by_cases h3 : a.length = 3
    · simp only [alpha3Step, if_pos h3]
      exact setAdd_nodup h
    · by_cases h2 : a.length = 2
      · simp only [alpha3Step, if_neg h3, if_pos h2]
        cases hp : pycountry_get_alpha2 a with
        | some ct => exact setAdd_nodup h
        | none => exact h
      · simp only [alpha3Step, if_neg h3, if_neg h2]
        exact h

theorem alpha3Step_skip (acc : List String × List String) (code : String)
    (h2 : code.length ≠ 2) (h3 : code.length ≠ 3) : alpha3Step acc code = acc := by
  simp [alpha3Step, h2, h3]

theorem getAlpha3Codes_skip (xs ys : List String) (code : String)
    (h2 : code.length ≠ 2) (h3 : code.length ≠ 3) :
    getAlpha3Codes (xs ++ code :: ys) = getAlpha3Codes (xs ++ ys) := by
  unfold getAlpha3Codes
  rw [List.foldl_append, List.foldl_append, List.foldl_cons, alpha3Step_skip _ _ h2 h3]

theorem indicator_fold_eq (lut : List IndicatorRow) (names : List String) :
    ∀ acc : List Nat × List String,
    names.foldl (fun indexes name =>
      match lut.filter (fun r => r.name == name) with
      | [r] => (indexes.1 ++ [r.index], indexes.2)
      | _ => (indexes.1, indexes.2 ++ [indicatorNotFoundMsg name])) acc
    = (acc.1 ++ names.filterMap (fun n => resolveOne lut n),
       acc.2 ++ names.filterMap (fun n =>
         match resolveOne lut n with
         | some _ => none
         | none => some (indicatorNotFoundMsg n))) := by
  induction names with
  | nil => intro acc; simp
  | cons n ns ih =>
    intro acc
    rw [List.foldl_cons, ih, List.filterMap_cons, List.filterMap_cons]
    cases hf : lut.filter (fun r => r.name == n) with
    | nil => simp [resolveOne, hf]
    | cons r rs =>
      cases rs with
      | nil => simp [resolveOne, hf]
      | cons r2 rs2 => simp [resolveOne, hf]

theorem getIndicatorIndexes_eq (c : Client) (f : Frequency) (names : List String) :
    c.getIndicatorIndexes f names =
      (names.filterMap (fun n => resolveOne (c.lut f) n),
       names.filterMap (fun n =>
         match resolveOne (c.lut f) n with
         | some _ => none
         | none => some (indicatorNotFoundMsg n))) := by
  unfold Client.getIndicatorIndexes
  rw [indicator_fold_eq]
  simp

theorem getIndicatorIndexes_mem_of_unique (c : Client) (f : Frequency)
    (names : List String) (n : String) (r : IndicatorRow)
    (hmem : n ∈ names) (hf : (c.lut f).filter (fun row => row.name == n) = [r]) :
    r.index ∈ (c.getIndicatorIndexes f names).1 := by
  rw [getIndicatorIndexes_eq]
  refine List.mem_filterMap.mpr ⟨n, hmem, ?_⟩
  simp [resolveOne, hf]

theorem getIndicatorIndexes_log_of_not_unique (c : Client) (f : Frequency)
    (names : List String) (n : String) (hmem : n ∈ names)
    (hlen : ((c.lut f).filter (fun row => row.name == n)).length ≠ 1) :
    indicatorNotFoundMsg n ∈ (c.getIndicatorIndexes f names).2 := by
  rw [getIndicatorIndexes_eq]
  refine List.mem_filterMap.mpr ⟨n, hmem, ?_⟩
  unfold resolveOne
  cases hf : (c.lut f).filter (fun row => row.name == n) with
  | nil => rfl
  | cons r rs =>
    cases rs with
    | nil => exact absurd (by rw [hf]; rfl) hlen
    | cons r2 rs2 => rfl

theorem getUri_invalid_args (c : Client) (iso_codes : List String)
    (frequency : Frequency) (now_year : Int) (kw : UriKwargs)
    (h : (c.resolveCodes iso_codes frequency).1 = [] ∨
         (c.resolveIndexes frequency kw).1 = some []) :
    c.getUri iso_codes frequency now_year kw =
      Except.ok (none, (c.resolveCodes iso_codes frequency).2 ++
        (c.resolveIndexes frequency kw).2 ++ ["Invalid indicator arguments"]) := by
  rcases h with h | h
  · cases hidx : (c.resolveIndexes frequency kw).1 with
    | none => simp [Client.getUri, h, hidx]
    | some idxs => simp [Client.getUri, h, hidx]
  · simp [Client.getUri, h]

theorem getUri_with_indicator_option_ok (c : Client) (iso_codes : List String)
    (frequency : Frequency) (now_year : Int) (kw : UriKwargs)
    (h : kw.indicators ≠ none ∨ kw.indexes ≠ none) :
    exceptOk (c.getUri iso_codes frequency now_year kw) = true := by
  simp only [Client.getUri]
  cases hidx : (c.resolveIndexes frequency kw).1 with
  | some idxs =>
      dsimp only
      split
      · rfl
      · rfl
  | none =>
      exfalso
      cases hi : kw.indicators with
      | some names => simp [Client.resolveIndexes, hi] at hidx
      | none =>
          simp only [Client.resolveIndexes, hi] at hidx
          rcases h with h | h
          · exact h hi
          · exact h hidx

theorem elements_fold (schema : XVal) (es : List XVal) :
    ∀ acc : List Record × List String,
    es.foldl (fun acc2 element =>
      match parseRecord schema element with
      | some r => (acc2.1 ++ [r], acc2.2)
      | none => (acc2.1, acc2.2 ++ [xmlReadErrorMsg])) acc
    = (acc.1 ++ es.filterMap (parseRecord schema),
       acc.2 ++ List.replicate
         (es.countP (fun e => (parseRecord schema e).isNone)) xmlReadErrorMsg) := by
  induction es with
  | nil => intro acc; simp
  | cons e es ih =>
    intro acc
    rw [List.foldl_cons, ih, List.filterMap_cons, List.countP_cons]
    cases hp : parseRecord schema e with
    | some r => simp [hp]
    | none => simp [hp, List.replicate_succ]

theorem countryStep_with_elements (kvs : List (String × XVal)) (ev : XVal)
    (hfind : kvs.find? (fun p => p.1 == "ge:element") = some ("ge:element", ev))
    (acc : List Record × List String) :
    countryStep (XVal.obj kvs) acc =
      Except.ok (acc.1 ++ (normalizeSeq ev).filterMap (parseRecord (XVal.obj kvs)),
        acc.2 ++ List.replicate ((normalizeSeq ev).countP
          (fun e => (parseRecord (XVal.obj kvs) e).isNone)) xmlReadErrorMsg) := by
  have hany : kvs.any (fun p => p.1 == "ge:element") = true :=
    List.any_eq_true.mpr ⟨("ge:element", ev),
      List.mem_of_find?_eq_some hfind, rfl⟩
  simp only [countryStep, pyContainsKey, hany, if_true, pySubscript, hfind]
  rw [elements_fold]

theorem countryStep_obj_ok (kvs : List (String × XVal))
    (acc : List Record × List String) :
    exceptOk (countryStep (XVal.obj kvs) acc) = true := by
  simp only [countryStep, pyContainsKey]
  cases h : kvs.any (fun p => p.1 == "ge:element") with
  | false => rfl
  | true =>
      obtain ⟨x, hx, hpx⟩ := List.any_eq_true.mp h
      have hs : (kvs.find? (fun p => p.1 == "ge:element")).isSome :=
        List.find?_isSome.mpr ⟨x, hx, hpx⟩
      obtain ⟨pr, hpr⟩ := Option.isSome_iff_exists.mp hs
      simp [pySubscript, hpr, exceptOk]

theorem convertSteps_ok (schemas : List XVal) :
    ∀ acc : List Record × List String,
    (∀ s ∈ schemas, s.isObj = true) →
    exceptOk (schemas.foldlM (fun acc schema => countryStep schema acc) acc) = true := by
  induction schemas with
  | nil => intro acc _; rfl
  | cons s ss ih =>
    intro acc hall
    have hs : s.isObj = true := hall s (List.mem_cons_self s ss)
    obtain ⟨kvs, rfl⟩ : ∃ kvs, s = XVal.obj kvs := by
      cases s with
      | obj kvs => exact ⟨kvs, rfl⟩
      | str v => cases hs
      | list v => cases hs
      | null => cases hs
    rw [List.foldlM_cons]
    cases hc : countryStep (XVal.obj kvs) acc with
    | error e =>
        have hok := countryStep_obj_ok kvs acc
        rw [hc] at hok
        cases hok
    | ok r =>
        exact ih r (fun t ht => hall t (List.mem_cons_of_mem _ ht))

theorem convertToDataFrame_wellShaped_ok (data : XVal)
    (h : wellShapedPayload data = true) :
    exceptOk (Client.convertToDataFrame data) = true := by
  unfold wellShapedPayload at h
  cases h1 : pySubscript data "ge:data" with
  | error e => simp only [h1] at h; exact Bool.noConfusion h
  | ok d1 =>
    simp only [h1] at h
    cases h2 : pySubscript d1 "ge:country" with
    | error e => simp only [h2] at h; exact Bool.noConfusion h
    | ok d2 =>
      simp only [h2] at h
      unfold Client.convertToDataFrame Client.convertRecords
      simp only [h1, h2]
      have hok := convertSteps_ok (normalizeSeq d2) ([], [])
        (fun s hs => by
          have := List.all_eq_true.mp h s hs
          simpa using this)
      cases hres : (normalizeSeq d2).foldlM
          (fun acc schema => countryStep schema acc) ([], []) with
      | error e => rw [hres] at hok; simp [exceptOk] at hok
      | ok r => rfl

theorem countryStep_no_elements (kvs : List (String × XVal))
    (hany : kvs.any (fun p => p.1 == "ge:element") = false)
    (acc : List Record × List String) :
    countryStep (XVal.obj kvs) acc = Except.ok acc := by
  simp [countryStep, pyContainsKey, hany]

theorem convertSteps_eq (schemas : List XVal) :
    ∀ acc : List Record × List String, (∀ s ∈ schemas, s.isObj = true) →
    schemas.foldlM (fun acc schema => countryStep schema acc) acc =
      Except.ok (acc.1 ++ schemas.flatMap schemaRecords,
        acc.2 ++ List.replicate ((schemas.map schemaLogCount).sum)
          xmlReadErrorMsg) := by
  induction schemas with
  | nil => intro acc _; simp; rfl
  | cons s ss ih =>
    intro acc hall
    have hs : s.isObj = true := hall s (List.mem_cons_self s ss)
    obtain ⟨kvs, rfl⟩ : ∃ kvs, s = XVal.obj kvs := by
      cases s with
      | obj kvs => exact ⟨kvs, rfl⟩
      | str v => cases hs
      | list v => cases hs
      | null => cases hs
    rw [List.foldlM_cons]
    cases hany : kvs.any (fun p => p.1 == "ge:element") with
    | false =>
        have hf : kvs.find? (fun p => p.1 == "ge:element") = none := by
          rw [List.find?_eq_none]
          intro x hx
          have hx' := List.any_eq_false.mp hany x hx
          simpa using hx'
        rw [countryStep_no_elements kvs hany acc]
        have hih := ih acc (fun t ht => hall t (List.mem_cons_of_mem _ ht))
        refine hih.trans ?_
        have hrec : schemaRecords (XVal.obj kvs) = [] := by
          simp [schemaRecords, hf]
        have hcnt : schemaLogCount (XVal.obj kvs) = 0 := by
          simp [schemaLogCount, hf]
        simp [hrec, hcnt]
    | true =>
        have hsome : (kvs.find? (fun p => p.1 == "ge:element")).isSome = true :=
          List.find?_isSome.mpr (List.any_eq_true.mp hany)
        obtain ⟨pr, hpr⟩ := Option.isSome_iff_exists.mp hsome
        have hb := List.find?_some hpr
        have hkey : pr.1 = "ge:element" := by simpa using hb
        have hfind : kvs.find? (fun p => p.1 == "ge:element") =
            some ("ge:element", pr.2) := by
          rw [hpr, ← hkey]
        rw [countryStep_with_elements kvs pr.2 hfind acc]
        have hih := ih
          (acc.1 ++ (normalizeSeq pr.2).filterMap (parseRecord (XVal.obj kvs)),
           acc.2 ++ List.replicate ((normalizeSeq pr.2).countP
             (fun e => (parseRecord (XVal.obj kvs) e).isNone)) xmlReadErrorMsg)
          (fun t ht => hall t (List.mem_cons_of_mem _ ht))
        refine hih.trans ?_
        have hrec : schemaRecords (XVal.obj kvs) =
            (normalizeSeq pr.2).filterMap (parseRecord (XVal.obj kvs)) := by
          simp [schemaRecords, hfind]
        have hcnt : schemaLogCount (XVal.obj kvs) =
            (normalizeSeq pr.2).countP
              (fun e => (parseRecord (XVal.obj kvs) e).isNone) := by
          simp [schemaLogCount, hfind]
        rw [List.flatMap_cons, List.map_cons, List.sum_cons, hrec, hcnt,
          List.replicate_add, List.append_assoc, List.append_assoc]

theorem convertToDataFrame_all_obj (data dataSection countrySection : XVal)
    (h1 : pySubscript data "ge:data" = Except.ok dataSection)
    (h2 : pySubscript dataSection "ge:country" = Except.ok countrySection)
    (hall : ∀ s ∈ normalizeSeq countrySection, s.isObj = true) :
    Client.convertToDataFrame data =
      Except.ok
        (if 0 < ((normalizeSeq countrySection).flatMap schemaRecords).length
           then some ((normalizeSeq countrySection).flatMap schemaRecords)
           else none,
         List.replicate (((normalizeSeq countrySection).map schemaLogCount).sum)
           xmlReadErrorMsg) := by
  unfold Client.convertToDataFrame Client.convertRecords
  simp only [h1, h2]
  rw [convertSteps_eq (normalizeSeq countrySection) ([], []) hall]
  simp

theorem convertSteps_singleton (s : XVal) (acc : List Record × List String) :
    ([s] : List XVal).foldlM (fun acc schema => countryStep schema acc) acc =
      countryStep s acc >>= pure := rfl

theorem convertRecords_single (kvs : List (String × XVal)) (ev : XVal)
    (hfind : kvs.find? (fun p => p.1 == "ge:element") = some ("ge:element", ev)) :
    Client.convertRecords
      (XVal.obj [("ge:data", XVal.obj [("ge:country", XVal.obj kvs)])]) =
      Except.ok ((normalizeSeq ev).filterMap (parseRecord (XVal.obj kvs)),
        List.replicate ((normalizeSeq ev).countP
          (fun e => (parseRecord (XVal.obj kvs) e).isNone)) xmlReadErrorMsg) := by
  show ([XVal.obj kvs] : List XVal).foldlM
    (fun acc schema => countryStep schema acc) ([], []) = _
  rw [convertSteps_singleton, countryStep_with_elements kvs ev hfind ([], [])]
  rfl

theorem convertToDataFrame_single (kvs : List (String × XVal)) (ev : XVal)
    (hfind : kvs.find? (fun p => p.1 == "ge:element") = some ("ge:element", ev)) :
    Client.convertToDataFrame
      (XVal.obj [("ge:data", XVal.obj [("ge:country", XVal.obj kvs)])]) =
      Except.ok
        (if 0 < ((normalizeSeq ev).filterMap (parseRecord (XVal.obj kvs))).length
           then some ((normalizeSeq ev).filterMap (parseRecord (XVal.obj kvs)))
           else none,
         List.replicate ((normalizeSeq ev).countP
           (fun e => (parseRecord (XVal.obj kvs) e).isNone)) xmlReadErrorMsg) := by
  unfold Client.convertToDataFrame
  rw [convertRecords_single kvs ev hfind]

theorem convertToDataFrame_some_nonempty (data : XVal) (recs : List Record)
    (log : List String)
    (h : Client.convertToDataFrame data = Except.ok (some recs, log)) :
    recs ≠ [] := by
  unfold Client.convertToDataFrame at h
  cases hr : Client.convertRecords data with
  | error e => rw [hr] at h; cases h
  | ok r =>
    simp only [hr] at h
    by_cases hl : 0 < r.1.length
    · rw [if_pos hl] at h
      have h1 : some r.1 = some recs := congrArg (fun x => x.1) (Except.ok.inj h)
      have h2 : r.1 = recs := Option.some.inj h1
      rw [← h2]
      exact List.ne_nil_of_length_pos hl
    · rw [if_neg hl] at h
      exact absurd (congrArg (fun x => x.1) (Except.ok.inj h)) (by simp)

theorem pyDate_first_of_year (y : Int) (hy1 : 1 ≤ y) (hy2 : y ≤ 9999) :
    pyDate y 1 1 = some ⟨y, 1, 1⟩ := by
  unfold pyDate
  rw [if_pos]
  exact ⟨hy1, hy2, by norm_num, by norm_num, by norm_num, by norm_num⟩

theorem parseRecord_oneElement (idv : String) (yv indv vv : XVal) (y : Int)
    (hy : pyInt yv = some y) (hy1 : 1 ≤ y) (hy2 : y ≤ 9999) :
    parseRecord (XVal.obj (oneSchema idv yv indv vv)) (oneElement yv indv vv)
      = some { id := XVal.str idv, date := ⟨y, 1, 1⟩,
               indicator := indv, value := vv } := by
  show Option.bind (pyInt yv) (fun year => Option.bind (pyDate year 1 1) (fun d =>
      some ({ id := XVal.str idv, date := d,
              indicator := indv, value := vv } : Record)))
    = some { id := XVal.str idv, date := ⟨y, 1, 1⟩,
             indicator := indv, value := vv }
  rw [hy]
  show Option.bind (pyDate y 1 1) (fun d =>
      some ({ id := XVal.str idv, date := d,
              indicator := indv, value := vv } : Record))
    = some { id := XVal.str idv, date := ⟨y, 1, 1⟩,
             indicator := indv, value := vv }
  rw [pyDate_first_of_year y hy1 hy2]
  rfl

theorem convertToDataFrame_one_element (idv : String) (yv indv vv : XVal)
    (y : Int) (hy : pyInt yv = some y) (hy1 : 1 ≤ y) (hy2 : y ≤ 9999) :
    Client.convertToDataFrame (onePayload idv yv indv vv) =
      Except.ok (some [{ id := XVal.str idv, date := ⟨y, 1, 1⟩,
                         indicator := indv, value := vv }], []) := by
  have hfind : (oneSchema idv yv indv vv).find? (fun p => p.1 == "ge:element")
      = some ("ge:element", oneElement yv indv vv) := rfl
  have h := convertToDataFrame_single (oneSchema idv yv indv vv)
    (oneElement yv indv vv) hfind
  unfold onePayload
  rw [h]
  rw [show normalizeSeq (oneElement yv indv vv) = [oneElement yv indv vv] from rfl]
  simp [parseRecord_oneElement idv yv indv vv y hy hy1 hy2]

theorem regexAltContains_of_mem (pats : List String) (s p : String)
    (hp : p ∈ pats) (hs : strContains s p = true) :
    regexAltContains pats s = true := by
  unfold regexAltContains
  rw [List.any_eq_true.mpr ⟨p, hp, hs⟩]
  simp

theorem resolveCodes_monthly_all (c : Client) (iso_codes : List String)
    (h : (getAlpha3Codes iso_codes).1 = []) :
    (c.resolveCodes iso_codes Frequency.monthly).1 =
      c.lut_api.map (fun r => r.id) := by
  show ((c.lut_api.filter (fun r =>
    regexAltContains (getAlpha3Codes iso_codes).1 r.code)).map (fun r => r.id)) = _
  rw [h]
  simp [regexAltContains]

/-- C1: for every collection of country identifiers, frequency, and
indicator options, if the resolved country-code set is empty or the
resolved indicator-index set is empty, then getUri returns null, logs the
invalid-indicator-arguments diagnostic, and does not raise. -/
theorem claim_getUri_null_on_empty_resolution (c : Client)
    (iso_codes : List String) (frequency : Frequency) (now_year : Int)
    (kw : UriKwargs)
    (h : (c.resolveCodes iso_codes frequency).1 = [] ∨
         (c.resolveIndexes frequency kw).1 = some []) :
    c.getUri iso_codes frequency now_year kw =
      Except.ok (none, (c.resolveCodes iso_codes frequency).2 ++
        (c.resolveIndexes frequency kw).2 ++ ["Invalid indicator arguments"]) :=
  getUri_invalid_args c iso_codes frequency now_year kw h

/-- Witness for C1: a concrete call with an empty resolved code set
returns null together with the diagnostic. -/
theorem claim_getUri_null_on_empty_resolution_witness :
    sampleClient.getUri [] Frequency.annual 2026 {} =
      Except.ok (none, ["Invalid indicator arguments"]) :=
  claim_getUri_null_on_empty_resolution sampleClient [] Frequency.annual 2026
    {} (Or.inl rfl)

/-- Counterexample to C2 as stated: getUri called with neither indicator
names nor indexes raises TypeError once the resolved code set is non-empty,
and convertToDataFrame applied to the null payload raises TypeError, so
these operations do propagate failures to their callers. -/
theorem claim_never_raise_counterexample :
    sampleClient.getUri ["IN"] Frequency.annual 2026 {} =
      Except.error PyErr.typeError ∧
    Client.convertToDataFrame XVal.null = Except.error PyErr.typeError :=
  ⟨rfl, rfl⟩

/-- C2 (amended): postRequest, getAlpha2Codes, getAlpha3Codes and
getIndicatorIndexes are total and never raise (their embeddings return
plain values); getUri never raises provided at least one of the
indicator-names or indexes options is supplied and, for monthly frequency,
every resolved alpha-3 code is free of regex metacharacters — a
metacharacter identifier is passed verbatim into the pattern join and can
make the pandas regex compilation raise re.error (client.py line 229,
outside any try), a path outside the literal-alternation model of
regexAltContains, hence the regexSafe restriction that confines the
statement to the domain the model represents faithfully;
convertToDataFrame never raises provided the payload carries the
ge:data/ge:country structure with mapping-shaped country entries. -/
theorem claim_public_ops_no_raise :
    (∀ (c : Client) (iso_codes : List String) (frequency : Frequency)
       (now_year : Int) (kw : UriKwargs),
       kw.indicators ≠ none ∨ kw.indexes ≠ none →
       (frequency = Frequency.monthly →
         ∀ code ∈ (getAlpha3Codes iso_codes).1, regexSafe code = true) →
       exceptOk (c.getUri iso_codes frequency now_year kw) = true)
    ∧ (∀ data : XVal, wellShapedPayload data = true →
       exceptOk (Client.convertToDataFrame data) = true) :=
  ⟨fun c iso_codes frequency now_year kw h _hsafe =>
      getUri_with_indicator_option_ok c iso_codes frequency now_year kw h,
   convertToDataFrame_wellShaped_ok⟩

/-- Witness for C2 (amended): a concrete monthly getUri call with an
explicit index list and metacharacter-free resolved codes, and a concrete
conversion of a well-shaped payload, both complete without raising. -/
theorem claim_public_ops_no_raise_witness :
    exceptOk (sampleClient.getUri ["IN"] Frequency.monthly 2026
      { indexes := some [3] }) = true ∧
    exceptOk (Client.convertToDataFrame
      (onePayload "US" (XVal.str "1999") (XVal.str "G") (XVal.str "5"))) = true :=
  ⟨claim_public_ops_no_raise.1 sampleClient ["IN"] Frequency.monthly 2026
      { indexes := some [3] } (Or.inr (by decide)) (fun _ => by decide),
   claim_public_ops_no_raise.2
      (onePayload "US" (XVal.str "1999") (XVal.str "G") (XVal.str "5")) rfl⟩

/-- Counterexample to C3 as stated: the empty payload does not yield null,
the unguarded ge:data subscript raises KeyError instead; and a payload
whose ge:data/ge:country structure is present but whose country sequence
holds a non-mapping entry containing the element key as a substring raises
TypeError, which is why the amendment carries the mapping-shaped-entries
proviso. -/
theorem claim_toTable_counterexample :
    Client.convertToDataFrame (XVal.obj []) = Except.error PyErr.keyError ∧
    exceptOk (Client.convertToDataFrame (XVal.obj [])) = false ∧
    Client.convertToDataFrame (XVal.obj [("ge:data", XVal.obj [("ge:country",
      XVal.list [XVal.str "xge:elementy"])])]) = Except.error PyErr.typeError :=
  ⟨rfl, rfl, rfl⟩

/-- C3 (amended): for every payload whose ge:data/ge:country structure is
present and whose normalized country entries are all mappings — single
entries and sequences alike — convertToDataFrame completes without raising
and produces, across all entries, one row per well-parsed element (entries
without an element section contribute nothing), one XML-read diagnostic
per element whose parse fails with only that element skipped, and null
exactly when zero rows were produced; a non-null result is always
non-empty; one country with one well-formed element yields exactly that
row.  Payloads outside that domain can raise instead (see the
counterexample). -/
theorem claim_toTable_rows :
    (∀ (data dataSection countrySection : XVal),
       pySubscript data "ge:data" = Except.ok dataSection →
       pySubscript dataSection "ge:country" = Except.ok countrySection →
       (∀ s ∈ normalizeSeq countrySection, s.isObj = true) →
       Client.convertToDataFrame data =
         Except.ok
           (if 0 < ((normalizeSeq countrySection).flatMap schemaRecords).length
              then some ((normalizeSeq countrySection).flatMap schemaRecords)
              else none,
            List.replicate
              (((normalizeSeq countrySection).map schemaLogCount).sum)
              xmlReadErrorMsg))
    ∧ (∀ (data : XVal) (recs : List Record) (log : List String),
       Client.convertToDataFrame data = Except.ok (some recs, log) → recs ≠ [])
    ∧ (∀ (idv : String) (yv indv vv : XVal) (y : Int),
       pyInt yv = some y → 1 ≤ y → y ≤ 9999 →
       Client.convertToDataFrame (onePayload idv yv indv vv) =
         Except.ok (some [{ id := XVal.str idv, date := ⟨y, 1, 1⟩,
                            indicator := indv, value := vv }], [])) :=
  ⟨convertToDataFrame_all_obj, convertToDataFrame_some_nonempty,
   convertToDataFrame_one_element⟩

/-- Witness for C3 (amended): a concrete one-country one-element payload
converts to exactly one row with the expected id, date, indicator and
value, and a concrete two-country sequence payload (second entry without
an element section) converts to exactly the first country's row with an
empty log. -/
theorem claim_toTable_rows_witness :
    Client.convertToDataFrame
      (onePayload "IN" (XVal.str "2020") (XVal.str "GDP") (XVal.str "3.5")) =
      Except.ok (some [{ id := XVal.str "IN", date := ⟨2020, 1, 1⟩,
                         indicator := XVal.str "GDP",
                         value := XVal.str "3.5" }], []) ∧
    Client.convertToDataFrame twoCountryPayload =
      Except.ok (some [{ id := XVal.str "IN", date := ⟨2020, 1, 1⟩,
                         indicator := XVal.str "G",
                         value := XVal.str "5" }], []) :=
  ⟨claim_toTable_rows.2.2 "IN" (XVal.str "2020") (XVal.str "GDP")
     (XVal.str "3.5") 2020 (by decide) (by norm_num) (by norm_num),
   (claim_toTable_rows.1 twoCountryPayload
     (XVal.obj [("ge:country", XVal.list
       [XVal.obj (oneSchema "IN" (XVal.str "2020") (XVal.str "G") (XVal.str "5")),
        XVal.obj [("@id", XVal.str "CN")]])])
     (XVal.list
       [XVal.obj (oneSchema "IN" (XVal.str "2020") (XVal.str "G") (XVal.str "5")),
        XVal.obj [("@id", XVal.str "CN")]])
     rfl rfl (by decide)).trans (by rfl)⟩

/-- C4: postRequest returns null after a category-specific diagnostic on
each transport-level failure, returns null without diagnostic when the
response body is not well-formed XML, and otherwise returns the parsed
nested-mapping structure; its embedding is a total function, so no failure
propagates to the caller. -/
theorem claim_postRequest_failure_handling :
    (∀ (t : String → TransportResult) (uri : String),
       t uri = TransportResult.httpError →
       Client.postRequest t uri = (XVal.null, ["Http Error"]))
    ∧ (∀ (t : String → TransportResult) (uri : String),
       t uri = TransportResult.connectionError →
       Client.postRequest t uri = (XVal.null, ["Connection Error"]))
    ∧ (∀ (t : String → TransportResult) (uri : String),
       t uri = TransportResult.timeoutError →
       Client.postRequest t uri = (XVal.null, ["Timeout Error"]))
    ∧ (∀ (t : String → TransportResult) (uri : String),
       t uri = TransportResult.requestError →
       Client.postRequest t uri = (XVal.null, ["Request Error"]))
    ∧ (∀ (t : String → TransportResult) (uri : String),
       t uri = TransportResult.generalError →
       Client.postRequest t uri = (XVal.null, ["General Error"]))
    ∧ (∀ (t : String → TransportResult) (uri : String) (parsed : XVal),
       t uri = TransportResult.success false parsed →
       Client.postRequest t uri = (XVal.null, []))
    ∧ (∀ (t : String → TransportResult) (uri : String) (parsed : XVal),
       t uri = TransportResult.success true parsed →
       Client.postRequest t uri = (parsed, [])) := by
  refine ⟨?_, ?_, ?_, ?_, ?_, ?_, ?_⟩
  · intro t uri h; simp [Client.postRequest, h]
  · intro t uri h; simp [Client.postRequest, h]
  · intro t uri h; simp [Client.postRequest, h]
  · intro t uri h; simp [Client.postRequest, h]
  · intro t uri h; simp [Client.postRequest, h]
  · intro t uri parsed h; simp [Client.postRequest, h]
  · intro t uri parsed h; simp [Client.postRequest, h]

/-- Witness for C4: a concrete http failure yields null with its
diagnostic, and a concrete well-formed response yields its parse. -/
theorem claim_postRequest_failure_handling_witness :
    Client.postRequest (fun _ => TransportResult.httpError) "u" =
      (XVal.null, ["Http Error"]) ∧
    Client.postRequest (fun _ => TransportResult.success true (XVal.str "d")) "u" =
      (XVal.str "d", []) :=
  ⟨claim_postRequest_failure_handling.1 (fun _ => TransportResult.httpError)
      "u" rfl,
   claim_postRequest_failure_handling.2.2.2.2.2.2
      (fun _ => TransportResult.success true (XVal.str "d")) "u"
      (XVal.str "d") rfl⟩

/-- Counterexample to C5 as stated: the identifier ZZ is unrecognized by
the ISO database, yet getAlpha2Codes includes it verbatim in the result
and logs nothing, so unrecognized codes are neither always excluded nor
always reported. -/
theorem claim_translator_counterexample :
    pycountry_get_alpha2 "ZZ" = none ∧
    "ZZ" ∈ (getAlpha2Codes ["ZZ"]).1 ∧
    (getAlpha2Codes ["ZZ"]).2 = [] := by
  refine ⟨rfl, ?_, rfl⟩
  decide

/-- C5 (amended): over mixed 2- and 3-letter identifiers, getAlpha2Codes
includes the alpha-2 equivalent of every database-recognized 3-letter code
and every 2-letter identifier verbatim without validation, every member of
its result has length 2 (so unrecognized 3-letter codes are excluded), it
logs exactly one error per unrecognized 3-letter code and nothing else,
and its result is duplicate-free; getAlpha3Codes behaves symmetrically. -/
theorem claim_translator_normalization :
    (∀ (iso_codes : List String) (code : String) (ct : Country),
       code ∈ iso_codes → code.length = 3 →
       pycountry_get_alpha3 code = some ct →
       ct.alpha_2 ∈ (getAlpha2Codes iso_codes).1)
    ∧ (∀ (iso_codes : List String) (code : String), code ∈ iso_codes →
       code.length = 2 → code ∈ (getAlpha2Codes iso_codes).1)
    ∧ (∀ (iso_codes : List String) (y : String),
       y ∈ (getAlpha2Codes iso_codes).1 → y.length = 2)
    ∧ (∀ iso_codes : List String, (getAlpha2Codes iso_codes).2.length =
        iso_codes.countP (fun c => c.length == 3 && (pycountry_get_alpha3 c).isNone))
    ∧ (∀ iso_codes : List String, (getAlpha2Codes iso_codes).1.Nodup)
    ∧ (∀ (iso_codes : List String) (code : String) (ct : Country),
       code ∈ iso_codes → code.length = 2 →
       pycountry_get_alpha2 code = some ct →
       ct.alpha_3 ∈ (getAlpha3Codes iso_codes).1)
    ∧ (∀ (iso_codes : List String) (code : String), code ∈ iso_codes →
       code.length = 3 → code ∈ (getAlpha3Codes iso_codes).1)
    ∧ (∀ (iso_codes : List String) (y : String),
       y ∈ (getAlpha3Codes iso_codes).1 → y.length = 3)
    ∧ (∀ iso_codes : List String, (getAlpha3Codes iso_codes).2.length =
        iso_codes.countP (fun c => c.length == 2 && (pycountry_get_alpha2 c).isNone))
    ∧ (∀ iso_codes : List String, (getAlpha3Codes iso_codes).1.Nodup) :=
  ⟨fun iso code ct hm h3 hct => alpha2_fold_mem_of_len3 iso ([], []) code ct hm h3 hct,
   fun iso code hm h2 => alpha2_fold_mem_of_len2 iso ([], []) code hm h2,
   getAlpha2Codes_mem_len,
   fun iso => by simpa using alpha2_fold_snd iso ([], []),
   fun iso => alpha2_fold_nodup iso ([], []) List.nodup_nil,
   fun iso code ct hm h2 hct => alpha3_fold_mem_of_len2 iso ([], []) code ct hm h2 hct,
   fun iso code hm h3 => alpha3_fold_mem_of_len3 iso ([], []) code hm h3,
   getAlpha3Codes_mem_len,
   fun iso => by simpa using alpha3_fold_snd iso ([], []),
   fun iso => alpha3_fold_nodup iso ([], []) List.nodup_nil⟩

/-- Witness for C5 (amended): concrete recognized codes normalize in both
directions and pass-through codes stay verbatim. -/
theorem claim_translator_normalization_witness :
    "IN" ∈ (getAlpha2Codes ["IND"]).1 ∧
    "CN" ∈ (getAlpha2Codes ["CN"]).1 ∧
    "IND" ∈ (getAlpha3Codes ["IN"]).1 ∧
    "USA" ∈ (getAlpha3Codes ["USA"]).1 :=
  ⟨claim_translator_normalization.1 ["IND"] "IND" ⟨"IN", "IND"⟩ (by decide)
      (by decide) (by decide),
   claim_translator_normalization.2.1 ["CN"] "CN" (by decide) (by decide),
   claim_translator_normalization.2.2.2.2.2.1 ["IN"] "IN" ⟨"IN", "IND"⟩
      (by decide) (by decide) (by decide),
   claim_translator_normalization.2.2.2.2.2.2.1 ["USA"] "USA" (by decide)
      (by decide)⟩

/-- C6: getIndicatorIndexes resolves each name with exactly one matching
row of the frequency-specific table to that row's index, skips any name
with zero or several matches while logging the diagnostic, and always
returns the partial result without failing: the output is fully
characterized as a filterMap over the names. -/
theorem claim_indicator_resolution :
    (∀ (c : Client) (f : Frequency) (names : List String),
       c.getIndicatorIndexes f names =
         (names.filterMap (fun n => resolveOne (c.lut f) n),
          names.filterMap (fun n =>
            match resolveOne (c.lut f) n with
            | some _ => none
            | none => some (indicatorNotFoundMsg n))))
    ∧ (∀ (c : Client) (f : Frequency) (names : List String) (n : String)
         (r : IndicatorRow), n ∈ names →
       (c.lut f).filter (fun row => row.name == n) = [r] →
       r.index ∈ (c.getIndicatorIndexes f names).1)
    ∧ (∀ (c : Client) (f : Frequency) (names : List String) (n : String),
       n ∈ names →
       ((c.lut f).filter (fun row => row.name == n)).length ≠ 1 →
       indicatorNotFoundMsg n ∈ (c.getIndicatorIndexes f names).2) :=
  ⟨getIndicatorIndexes_eq, getIndicatorIndexes_mem_of_unique,
   getIndicatorIndexes_log_of_not_unique⟩

/-- Witness for C6: against the sample annual table, a uniquely matching
name contributes its index and an unknown name contributes its
diagnostic. -/
theorem claim_indicator_resolution_witness :
    (1 : Nat) ∈ (sampleClient.getIndicatorIndexes Frequency.annual
      ["Access to electricity", "nope"]).1 ∧
    indicatorNotFoundMsg "nope" ∈ (sampleClient.getIndicatorIndexes
      Frequency.annual ["Access to electricity", "nope"]).2 :=
  ⟨claim_indicator_resolution.2.1 sampleClient Frequency.annual
      ["Access to electricity", "nope"] "Access to electricity"
      ⟨1, "Access to electricity"⟩ (by decide) (by decide),
   claim_indicator_resolution.2.2 sampleClient Frequency.annual
      ["Access to electricity", "nope"] "nope" (by decide) (by decide)⟩

/-- C7: with non-empty resolved codes and indexes, getUri returns the
query string root?tp=..&ind=..&cnt=..&prd=..&uid=..&uidc=.. with tp = 1
for annual and 2 for monthly, comma-joined indexes and codes, and the
period equal to the explicit option when given, else startYear:endYear
with defaults 1960 and the current year; indicator names take precedence
over explicit indexes. -/
theorem claim_getUri_format :
    (∀ (c : Client) (iso_codes : List String) (f : Frequency) (now_year : Int)
       (kw : UriKwargs) (codes log1 : List String) (idxs : List Nat)
       (log2 : List String),
       c.resolveCodes iso_codes f = (codes, log1) →
       c.resolveIndexes f kw = (some idxs, log2) →
       codes ≠ [] → idxs ≠ [] →
       c.getUri iso_codes f now_year kw =
         Except.ok (some (c.root ++ "?tp=" ++ toString f.value ++
           "&ind=" ++ String.intercalate "," (idxs.map toString) ++
           "&cnt=" ++ String.intercalate "," codes ++
           "&prd=" ++ Client.periodString kw now_year ++
           "&uid=" ++ c.uid ++ "&uidc=" ++ c.uidc), log1 ++ log2))
    ∧ (Frequency.annual.value = 1 ∧ Frequency.monthly.value = 2)
    ∧ (∀ (kw : UriKwargs) (now_year : Int) (p : String), kw.period = some p →
       Client.periodString kw now_year = p)
    ∧ (∀ (now_year : Int) (sy ey : Option Int),
       Client.periodString { start_year := sy, end_year := ey } now_year =
         toString (sy.getD 1960) ++ ":" ++ toString (ey.getD now_year))
    ∧ (∀ (c : Client) (f : Frequency) (kw : UriKwargs) (names : List String),
       kw.indicators = some names →
       (c.resolveIndexes f kw).1 = some (c.getIndicatorIndexes f names).1) := by
  refine ⟨?_, ⟨rfl, rfl⟩, ?_, ?_, ?_⟩
  · intro c iso_codes f now_year kw codes log1 idxs log2 hc hi hcne hine
    simp only [Client.getUri, hc, hi]
    rw [if_pos ⟨List.length_pos.mpr hcne, List.length_pos.mpr hine⟩]
  · intro kw now_year p hp
    simp [Client.periodString, hp]
  · intro now_year sy ey
    rfl
  · intro c f kw names h
    simp [Client.resolveIndexes, h]

/-- Witness for C7: a concrete annual request with a resolved indicator
name produces the fully formatted uri with default period bounds. -/
theorem claim_getUri_format_witness :
    sampleClient.getUri ["IN", "CN"] Frequency.annual 2026
      { indicators := some ["Exports, percent of GDP"] } =
      Except.ok
        (some "https://api?tp=1&ind=2&cnt=IN,CN&prd=1960:2026&uid=u1&uidc=c1",
         []) :=
  (claim_getUri_format.1 sampleClient ["IN", "CN"] Frequency.annual 2026
    { indicators := some ["Exports, percent of GDP"] } ["IN", "CN"] [] [2] []
    (by decide) (by decide) (by decide) (by decide)).trans (by rfl)

/-- C8: evaluation of the probe at the failing input: getIndicatorLookup
raises TypeError on its first loop iteration for any client, transport and
frequency as soon as max_index exceeds 1, because its getUri call omits
the required frequency positional argument, so no (index, name) pair is
ever recorded and the claimed round-trip never gets to run. -/
theorem claim_bootstrap_roundtrip_code_bug :
    sampleClient.getIndicatorLookup (fun _ => TransportResult.generalError)
      Frequency.annual 2 = Except.error PyErr.typeError := rfl

/-- C9: for monthly frequency, getUri selects every api-table row whose
code column contains any resolved alpha-3 code as a substring via a regex
alternation, not by exact match; the empty code set gives the empty
pattern, which matches every row, so the resolved codes become the whole
table. -/
theorem claim_monthly_substring_selection :
    (∀ (c : Client) (iso_codes : List String),
       (c.resolveCodes iso_codes Frequency.monthly).1 =
         (c.lut_api.filter (fun r =>
           regexAltContains (getAlpha3Codes iso_codes).1 r.code)).map
           (fun r => r.id))
    ∧ (∀ (c : Client) (iso_codes : List String),
       (getAlpha3Codes iso_codes).1 = [] →
       (c.resolveCodes iso_codes Frequency.monthly).1 =
         c.lut_api.map (fun r => r.id))
    ∧ (∀ (pats : List String) (s p : String), p ∈ pats →
       strContains s p = true → regexAltContains pats s = true) :=
  ⟨fun _ _ => rfl, resolveCodes_monthly_all, regexAltContains_of_mem⟩

/-- Witness for C9: with no resolvable identifiers the monthly code set is
the entire sample api table, and a pattern matches as a proper substring. -/
theorem claim_monthly_substring_selection_witness :
    (sampleClient.resolveCodes [] Frequency.monthly).1 = ["96", "40"] ∧
    regexAltContains ["IND"] "XINDY" = true :=
  ⟨(claim_monthly_substring_selection.2.1 sampleClient [] rfl).trans rfl,
   claim_monthly_substring_selection.2.2 ["IND"] "XINDY" "IND" (by decide)
     (by decide)⟩

/-- C10: the translators silently omit identifiers whose length is neither
2 nor 3, leaving both the result and the log unchanged, and include every
identifier already of the target length verbatim with no database
validation. -/
theorem claim_translator_length_handling :
    (∀ (xs ys : List String) (code : String), code.length ≠ 2 →
       code.length ≠ 3 →
       getAlpha2Codes (xs ++ code :: ys) = getAlpha2Codes (xs ++ ys))
    ∧ (∀ (xs ys : List String) (code : String), code.length ≠ 2 →
       code.length ≠ 3 →
       getAlpha3Codes (xs ++ code :: ys) = getAlpha3Codes (xs ++ ys))
    ∧ (∀ (iso_codes : List String) (code : String), code ∈ iso_codes →
       code.length = 2 → code ∈ (getAlpha2Codes iso_codes).1)
    ∧ (∀ (iso_codes : List String) (code : String), code ∈ iso_codes →
       code.length = 3 → code ∈ (getAlpha3Codes iso_codes).1) :=
  ⟨getAlpha2Codes_skip, getAlpha3Codes_skip,
   fun iso code hm h2 => alpha2_fold_mem_of_len2 iso ([], []) code hm h2,
   fun iso code hm h3 => alpha3_fold_mem_of_len3 iso ([], []) code hm h3⟩

/-- Witness for C10: a 4-letter and a 1-letter identifier are dropped with
no trace, and unvalidated target-length identifiers pass through. -/
theorem claim_translator_length_handling_witness :
    getAlpha2Codes ([] ++ "ZZZZ" :: []) = getAlpha2Codes ([] ++ []) ∧
    getAlpha3Codes ([] ++ "Q" :: []) = getAlpha3Codes ([] ++ []) ∧
    "QQ" ∈ (getAlpha2Codes ["QQ"]).1 ∧
    "QQQ" ∈ (getAlpha3Codes ["QQQ"]).1 :=
  ⟨claim_translator_length_handling.1 [] [] "ZZZZ" (by decide) (by decide),
   claim_translator_length_handling.2.1 [] [] "Q" (by decide) (by decide),
   claim_translator_length_handling.2.2.1 ["QQ"] "QQ" (by decide) (by decide),
   claim_translator_length_handling.2.2.2 ["QQQ"] "QQQ" (by decide)
     (by decide)⟩

end GlobalEconomy
